import Mathlib

/-!
A verification development for the Maestro browser-automation backend.

The definitions below are a shallow embedding of the backend's core:
the Gemini planner adapter (`services/gemini.js`), the sequencing loop
(`routes/ai.js`), the storage accessors (`db.js`), the scheduler
(`services/scheduler.js`) and the websocket dispatch (`server.js`).
Timestamps are modelled as natural numbers (milliseconds); SQLite rows
are modelled as Lean structures held in lists; ISO-8601 timestamp
comparisons (which are lexicographic, hence chronological) are modelled
as numeric comparisons.  JavaScript truthiness of optional string or
object fields is modelled with `Option` (with `none` standing for an
absent or falsy field).  Fallible code returns `Except`; handlers that
mutate the store before throwing return the mutated store alongside the
`Except` outcome.
-/

namespace Maestro

/-! ## JSON values and task parameters -/

/-- Minimal JSON value type used for task parameters. -/
inductive JVal where
  | str : String → JVal
  | num : Int → JVal
  | bool : Bool → JVal
  | null : JVal
deriving DecidableEq, Repr

/-- Task parameters: a JSON object, as a field/value association list. -/
def Params : Type := List (String × JVal)

instance : DecidableEq Params := by
  unfold Params
  infer_instance

instance : Repr Params := by
  unfold Params
  infer_instance

/-! ## Page snapshots (the structured page format produced by the extension) -/

/-- One page heading, as collected by the extension content script. -/
structure Heading where
  level : Nat
  text : String
deriving DecidableEq, Repr

/-- One interactive element of a page snapshot.  `label` and `value` use
`none` for an absent (or JavaScript-falsy) field. -/
structure IElem where
  type : String
  selector : String
  label : Option String
  value : Option String
deriving DecidableEq, Repr

/-- The structured page snapshot. -/
structure PageInfo where
  url : String
  title : String
  description : Option String
  headings : List Heading
  interactiveElements : List IElem
deriving DecidableEq, Repr

/-- The page payload of a request: the new structured format, the legacy
raw-HTML format, or nothing.  Mirrors the truthiness tests
`pageData.interactiveElements ? ... : pageData.html ? ... : null` of the
source (an empty element array is truthy in JavaScript, hence
`structured`). -/
inductive PageData where
  | structured : PageInfo → PageData
  | rawHtml : String → PageData
  | noInfo : PageData
deriving DecidableEq, Repr

/-! ## A stable sort

JavaScript's `Array.prototype.sort` is stable (ES2019), and SQL `ORDER
BY` with ties is modelled as stable on insertion order.  Both are
modelled by a stable insertion sort: `le x y = true` keeps `x` before
`y`, and an earlier element is kept before an equal later one. -/

/-- Insert an element before the first position whose element it
`le`-precedes. -/
def insertSorted {α : Type} (le : α → α → Bool) (x : α) : List α → List α
  | [] => [x]
  | y :: l => if le x y then x :: y :: l else y :: insertSorted le x l

/-- Stable insertion sort. -/
def stableSort {α : Type} (le : α → α → Bool) : List α → List α
  | [] => []
  | x :: l => insertSorted le x (stableSort le l)

/-! ## The planner adapter: `truncatePageContext` (services/gemini.js) -/

/-- One heading line of the page context:
two spaces, `level` hash marks, a space and the heading's text. -/
def headingLine (h : Heading) : String :=
  "  " ++ String.mk (List.replicate h.level '#') ++ " " ++ h.text

/-- Priority of an interactive element, from the sort comparator of
`truncatePageContext`: labelled elements score 2, buttons and inputs
score 1 more. -/
def elementPriority (el : IElem) : Nat :=
  (if el.label.isSome then 2 else 0) +
    (if el.type == "button" || el.type == "input" then 1 else 0)

/-- The numbered line printed for one interactive element. -/
def elementLine (count : Nat) (el : IElem) : String :=
  toString (count + 1) ++ ". " ++ el.type ++ " - Selector: \"" ++ el.selector ++ "\"" ++
    (match el.label with
      | some l => " - Label: \"" ++ l ++ "\""
      | none => "") ++
    (match el.value with
      | some v => " - Value: \"" ++ v ++ "\""
      | none => "") ++ "\n"

/-- The greedy element-list builder of `truncatePageContext`: walk the
priority-sorted elements, appending each element's line while the running
total (page context so far, header, list, candidate line, plus a 50
character reserve for the closing text) stays within `maxChars`; stop at
the first element that does not fit.  Returns the list text, the number
of elements taken, and whether truncation occurred. -/
def buildElements (base header : String) (maxChars : Nat) :
    List IElem → String → Nat → String × Nat × Bool
  | [], list, count => (list, count, false)
  | el :: rest, list, count =>
    let t := elementLine count el
    if base.length + header.length + list.length + t.length + 50 > maxChars then
      (list, count, true)
    else
      buildElements base header maxChars rest (list ++ t) (count + 1)

/-- `truncatePageContext(pageData, maxChars)`: render a page payload as
planner context text, truncating the interactive element list to the
character budget.  The element sort is by descending `elementPriority`;
JavaScript's `Array.prototype.sort` is stable, modelled by the stable
sort above. -/
def truncatePageContext (pageData : PageData) (maxChars : Nat) : String :=
  match pageData with
  | .structured p =>
    let base0 := "Current page information:\nURL: " ++ p.url ++ "\nTitle: " ++ p.title ++ "\n" ++
      (match p.description with
        | some d => "Description: " ++ d ++ "\n"
        | none => "")
    let base :=
      if p.headings.length > 0 then
        let headingsText :=
          "Headings:\n" ++ String.intercalate "\n" (p.headings.map headingLine) ++ "\n"
        if base0.length + headingsText.length ≤ maxChars then base0 ++ headingsText else base0
      else base0
    let sorted := stableSort
      (fun a b => Nat.ble (elementPriority b) (elementPriority a)) p.interactiveElements
    let header := "Interactive elements (" ++ toString p.interactiveElements.length ++
      " total, showing first "
    let r := buildElements base header maxChars sorted "" 0
    base ++ header ++
      (if r.2.2 then toString r.2.1 ++ " due to token limit" else toString r.2.1) ++ "):\n" ++
      r.1 ++
      (if r.2.2 then
        "\n[Note: Page has " ++ toString p.interactiveElements.length ++
          " total interactive elements, but only showing first " ++ toString r.2.1 ++
          " due to token limit]"
      else "")
  | .rawHtml s =>
    let t := s.take maxChars
    "Current page HTML (truncated to " ++ toString t.length ++ " chars, original: " ++
      toString s.length ++ " chars):\n" ++ t ++ "\n"
  | .noInfo => "No page information available"

/-! ## The planner adapter: `generateTask` retry loop (services/gemini.js) -/

/-- The upstream oracle's response, abstracted at the granularity the
parsing pipeline of `generateTask` distinguishes: no JSON object found in
the text, a JSON candidate that fails to parse, or a parsed object with
its relevant fields.  `ty` and `ps` use `none` for an absent (or falsy)
`type` / `params` field; `isCompleteTrue` records whether the
`isComplete` field was the literal `true`. -/
inductive OracleResp where
  | noJson : OracleResp
  | badJson : String → OracleResp
  | obj : (ty : Option String) → (ps : Option Params) → (rsn : Option String) →
      (isCompleteTrue : Bool) → OracleResp
deriving DecidableEq, Repr

/-- The validated planner output returned by `generateTask`. -/
structure TaskData where
  type : String
  params : Params
  reasoning : String
  isComplete : Bool
deriving DecidableEq, Repr

/-- The six declared task kinds. -/
def validTypes : List String := ["navigate", "click", "fill", "extract", "wait", "custom"]

/-- One attempt's parse-and-validate pipeline of `generateTask`:
extract JSON, parse it, require `type` and `params` to be present, and
require `type` to be one of the six declared kinds.  (The quotation marks
of the source's error messages are omitted.) -/
def parseOracleResp : OracleResp → Except String TaskData
  | .noJson => .error "No JSON found in Gemini response"
  | .badJson m => .error ("Invalid JSON format: " ++ m)
  | .obj ty ps rsn c =>
    match ty, ps with
    | some t, some p =>
      if validTypes.contains t then
        .ok { type := t, params := p, reasoning := rsn.getD "No reasoning provided",
              isComplete := c }
      else
        .error ("Invalid task type: " ++ t ++
          ". Must be one of: navigate, click, fill, extract, wait, custom")
    | _, _ => .error "Invalid task structure: missing type or params field"

/-- Maximum number of planner attempts. -/
def MAX_RETRIES : Nat := 5

/-- The explicit strict-JSON instruction appended to the prompt on every
retry attempt, carrying the previous attempt's error message. -/
def jsonEmphasis (lastError : String) : String :=
  "\n\nIMPORTANT: You must respond with ONLY valid JSON. No explanations, no markdown, no code blocks. Just the raw JSON object. Previous attempt failed: " ++
    lastError

/-- The retry loop of `generateTask`.  `oracle i` is the upstream
response to the i-th call (1-indexed); the returned list holds the prompt
issued on each upstream call, in order.  The fuel argument encodes the
loop guard `attempt < MAX_RETRIES`; the fuel-exhausted branch mirrors the
source's unreachable post-loop guard. -/
def genLoop (oracle : Nat → OracleResp) (fullPrompt : String) :
    Nat → Nat → Option String → List String × Except String TaskData
  | 0, _, _ =>
    ([], .error ("Failed to get valid JSON after " ++ toString MAX_RETRIES ++ " attempts"))
  | fuel + 1, attempt, lastErr =>
    let attempt1 := attempt + 1
    let currentPrompt :=
      if attempt1 > 1 then fullPrompt ++ jsonEmphasis (lastErr.getD "Invalid JSON format")
      else fullPrompt
    match parseOracleResp (oracle attempt1) with
    | .ok td => ([currentPrompt], .ok td)
    | .error e =>
      if MAX_RETRIES ≤ attempt1 then
        ([currentPrompt],
          .error ("Failed to get valid JSON after " ++ toString MAX_RETRIES ++
            " attempts. Last error: " ++ e))
      else
        let r := genLoop oracle fullPrompt fuel attempt1 (some e)
        (currentPrompt :: r.1, r.2)

/-- `generateTask`, as a function of the upstream oracle and the already
assembled full prompt (system prompt, goal, history context and truncated
page context).  Returns the prompts of all upstream calls made, and
either the validated task data or the error the function throws. -/
def generateTask (oracle : Nat → OracleResp) (fullPrompt : String) :
    List String × Except String TaskData :=
  let r := genLoop oracle fullPrompt MAX_RETRIES 0 none
  (r.1,
    match r.2 with
    | .ok td => .ok td
    | .error e => .error ("Failed to generate task: " ++ e))

/-! ## Store rows: tasks, sessions, history (db.js) -/

/-- A row of the `tasks` table.  `extensionId`, `reasoning`, `result`,
`error`, `scheduledAt`, `startedAt` and `completedAt` are nullable
columns. -/
structure Task where
  id : String
  userId : String
  extensionId : Option String
  type : String
  params : Params
  reasoning : Option String
  status : String
  result : Option String
  error : Option String
  scheduledAt : Option Nat
  createdAt : Nat
  startedAt : Option Nat
  completedAt : Option Nat
deriving DecidableEq, Repr

/-- The task object stored inside a conversation-history entry and sent
over the websocket: id (absent for the scheduler's resumption payload),
type and parameters. -/
structure TaskRef where
  id : Option String
  type : String
  params : Params
deriving DecidableEq, Repr

/-- The reduced page summary stored in a history entry: either the
structured summary (url, title, element count; absent string fields are
modelled as empty strings), or the fixed legacy marker object. -/
inductive PageInfoSummary where
  | info : (url : String) → (title : String) → (elementCount : Nat) → PageInfoSummary
  | htmlTruncated : PageInfoSummary
deriving DecidableEq, Repr

/-- One conversation-history entry of an AI session. -/
structure HistoryEntry where
  task : Option TaskRef
  reasoning : Option String
  result : Option String
  error : Option String
  pageInfo : Option PageInfoSummary
  timestamp : Nat
deriving DecidableEq, Repr

/-- A row of the `ai_sessions` table. -/
structure Session where
  id : String
  userId : String
  extensionId : String
  originalPrompt : String
  history : List HistoryEntry
  status : String
  scheduledAt : Option Nat
  createdAt : Nat
  updatedAt : Nat
deriving DecidableEq, Repr

/-- A task message handed to the websocket of an extension. -/
structure Dispatch where
  extensionId : String
  task : TaskRef
deriving DecidableEq, Repr

/-- The backend's observable state: the two store tables, the connected
extension ids (the connection registry), and the log of task messages
dispatched to extensions. -/
structure St where
  tasks : List Task
  sessions : List Session
  connections : List String
  sent : List Dispatch
deriving DecidableEq, Repr

/-! ## Store accessors (db.js) -/

/-- `getTask`: look a task up by primary key. -/
def getTask (st : St) (taskId : String) : Option Task :=
  st.tasks.find? (fun t => t.id == taskId)

/-- The row update of `updateTaskStatus` applied to one task row. -/
def applyTaskStatus (taskId status : String) (result error : Option String) (now : Nat)
    (t : Task) : Task :=
  if t.id == taskId then
    { t with
      status := status
      startedAt := if status == "started" then some now else t.startedAt
      completedAt :=
        if status == "completed" || status == "failed" then some now else t.completedAt
      result := if result.isSome then result else t.result
      error := if error.isSome then error else t.error }
  else t

/-- `updateTaskStatus`: set a task's status, recording `started_at` when
it becomes `started` and `completed_at` when it becomes `completed` or
`failed`; `result` and `error` are only written when non-null. -/
def updateTaskStatus (st : St) (taskId status : String)
    (result error : Option String) (now : Nat) : St :=
  { st with tasks := st.tasks.map (applyTaskStatus taskId status result error now) }

/-- `createTask`: insert a task row (the caller builds the row with
status `pending`). -/
def createTask (st : St) (t : Task) : St :=
  { st with tasks := st.tasks ++ [t] }

/-- `getTasksByUser`: the user's tasks, most recently created first,
capped at `limit` rows. -/
def getTasksByUser (st : St) (userId : String) (limit : Nat) : List Task :=
  (stableSort (fun a b => Nat.ble b.createdAt a.createdAt)
    (st.tasks.filter (fun t => t.userId == userId))).take limit

/-- `getDueScheduledTasks`: pending tasks whose scheduled time has
arrived, earliest first. -/
def getDueScheduledTasks (st : St) (now : Nat) : List Task :=
  stableSort (fun a b => Nat.ble (a.scheduledAt.getD 0) (b.scheduledAt.getD 0))
    (st.tasks.filter (fun t =>
      t.scheduledAt.isSome && Nat.ble (t.scheduledAt.getD 0) now && t.status == "pending"))

/-- `getAISession`: look an AI session up by primary key. -/
def getAISession (st : St) (sessionId : String) : Option Session :=
  st.sessions.find? (fun s => s.id == sessionId)

/-- `getScheduledAISessions`: active sessions whose scheduled time has
arrived, earliest first. -/
def getScheduledAISessions (st : St) (now : Nat) : List Session :=
  stableSort (fun a b => Nat.ble (a.scheduledAt.getD 0) (b.scheduledAt.getD 0))
    (st.sessions.filter (fun s =>
      s.scheduledAt.isSome && Nat.ble (s.scheduledAt.getD 0) now && s.status == "active"))

/-- The row update of `updateAISession` applied to one session row. -/
def applySessionUpdate (sessionId : String) (status : Option String)
    (history : Option (List HistoryEntry)) (now : Nat) (s : Session) : Session :=
  if s.id == sessionId then
    { s with
      status := status.getD s.status
      history := history.getD s.history
      updatedAt := now }
  else s

/-- `updateAISession`: update a session's status and/or conversation
history (an absent update leaves the column unchanged), stamping
`updated_at`. -/
def updateAISession (st : St) (sessionId : String) (status : Option String)
    (history : Option (List HistoryEntry)) (now : Nat) : St :=
  { st with sessions := st.sessions.map (applySessionUpdate sessionId status history now) }

/-- `addToConversationHistory`: append one entry (stamped with the
current time) to a session's history; fails when the session does not
exist. -/
def addToConversationHistory (st : St) (sessionId : String) (entry : HistoryEntry)
    (now : Nat) : Except String St :=
  match getAISession st sessionId with
  | none => .error "Session not found"
  | some s =>
    .ok (updateAISession st sessionId none
      (some (s.history ++ [{ entry with timestamp := now }])) now)

/-- `getAISessionByTaskId`: find the active session owning a task: same
extension and user, and either the task id appears in the conversation
history, or (fallback) the session's scheduled time equals the task's.
A task with a null `extension_id` matches no session (SQL `= NULL`). -/
def getAISessionByTaskId (st : St) (taskId : String) : Option Session :=
  match getTask st taskId with
  | none => none
  | some task =>
    let sessions :=
      match task.extensionId with
      | none => []
      | some ext =>
        st.sessions.filter (fun (s : Session) =>
          s.extensionId == ext && s.userId == task.userId && s.status == "active")
    match sessions.find? (fun s =>
        s.history.any (fun e => e.task.any (fun tr => tr.id == some taskId))) with
    | some s => some s
    | none => sessions.find? (fun s => s.scheduledAt == task.scheduledAt)

/-! ## Websocket dispatch (server.js) -/

/-- The websocket payload of a task. -/
def Task.ref (t : Task) : TaskRef :=
  { id := some t.id, type := t.type, params := t.params }

/-- `sendTaskToExtension`: when the extension has an open connection,
send the task message and return true; otherwise return false. -/
def sendTaskToExtension (st : St) (extensionId : String) (t : TaskRef) : St × Bool :=
  if st.connections.contains extensionId then
    ({ st with sent := st.sent ++ [{ extensionId := extensionId, task := t }] }, true)
  else (st, false)

/-! ## The sequencing loop: `continueTaskSequence` (routes/ai.js) -/

/-- The task object of a step-outcome report handed to
`continueTaskSequence` (the scheduler passes one without an id or
reasoning; the websocket path passes the full task row). -/
structure LRTask where
  id : Option String
  type : String
  params : Params
  reasoning : Option String
deriving DecidableEq, Repr

/-- The `lastTaskResult` argument of `continueTaskSequence`. -/
structure LastResult where
  task : Option LRTask
  reasoning : Option String
  result : Option String
  error : Option String
deriving DecidableEq, Repr

/-- JavaScript `a || b` on nullable values. -/
def olor (a b : Option String) : Option String :=
  if a.isSome then a else b

/-- The reduced page summary recorded in history entries by the
sequencing loop: the structured summary for the new format, the fixed
marker for the legacy raw-HTML format. -/
def summaryOf : PageData → Option PageInfoSummary
  | .structured p => some (.info p.url p.title p.interactiveElements.length)
  | .rawHtml _ => some .htmlTruncated
  | .noInfo => none

/-- The successful result of a `continueTaskSequence` turn. -/
structure ContinueOk where
  isComplete : Bool
  task : Option TaskRef
deriving DecidableEq, Repr

/-- A prompt builder stands for the pure string assembly of the full
planner prompt from the goal, the page payload and the conversation
history (system prompt, loop-avoidance context, truncated page context).
It is a parameter because the oracle of this model is indexed by attempt
number, not by prompt text. -/
def PromptBuilder : Type := String → PageData → List HistoryEntry → String

/-- The history entry that `continueTaskSequence` records for the
previous step's outcome. -/
def contEntry1 (lastTaskResult : Option LastResult) (pageData : PageData) : HistoryEntry :=
  { task := (lastTaskResult.bind (fun lr => lr.task)).map
      (fun t => { id := t.id, type := t.type, params := t.params })
    reasoning := olor (lastTaskResult.bind (fun lr => lr.reasoning))
      ((lastTaskResult.bind (fun lr => lr.task)).bind (fun t => t.reasoning))
    result := lastTaskResult.bind (fun lr => lr.result)
    error := lastTaskResult.bind (fun lr => lr.error)
    pageInfo := summaryOf pageData
    timestamp := 0 }

/-- The task row that `continueTaskSequence` creates for the planner's
next action. -/
def contTask (session : Session) (td : TaskData) (newTaskId : String) (now : Nat) : Task :=
  { id := newTaskId, userId := session.userId
    extensionId := some session.extensionId
    type := td.type, params := td.params, reasoning := some td.reasoning
    status := "pending", result := none, error := none
    scheduledAt := none, createdAt := now, startedAt := none
    completedAt := none }

/-- The history entry that `continueTaskSequence` records for the newly
created task. -/
def contEntry2 (td : TaskData) (newTaskId : String) (pageData : PageData) : HistoryEntry :=
  { task := some { id := some newTaskId, type := td.type, params := td.params }
    reasoning := some td.reasoning
    result := none, error := none
    pageInfo := summaryOf pageData
    timestamp := 0 }

/-- `continueTaskSequence(sessionId, pageData, lastTaskResult)`: one turn
of the sequencing loop.  Records the previous step's outcome in the
history, asks the planner for the next task, and either completes the
session (planner said `isComplete`), or creates and dispatches the next
task.  Returns the resulting state together with the outcome; on a
thrown error the state keeps every mutation made before the throw. -/
def continueTaskSequence (oracle : Nat → OracleResp) (pb : PromptBuilder) (st : St)
    (sessionId : String) (pageData : PageData) (lastTaskResult : Option LastResult)
    (newTaskId : String) (now : Nat) : St × Except String ContinueOk :=
  if sessionId == "" || pageData == PageData.noInfo then
    (st, .error "Missing required fields: sessionId, pageInfo")
  else
    match getAISession st sessionId with
    | none => (st, .error "Session not found")
    | some session =>
      if session.status != "active" then
        (st, .error ("Session is not active (status: " ++ session.status ++ ")"))
      else
        match addToConversationHistory st sessionId (contEntry1 lastTaskResult pageData) now with
        | .error e => (st, .error e)
        | .ok st1 =>
          let conversationHistory := ((getAISession st1 sessionId).map Session.history).getD []
          match generateTask oracle (pb session.originalPrompt pageData conversationHistory) with
          | (_, .error e) => (st1, .error e)
          | (_, .ok td) =>
            if td.isComplete then
              (updateAISession st1 sessionId (some "completed") none now,
                .ok { isComplete := true, task := none })
            else
              let task := contTask session td newTaskId now
              let st2 := createTask st1 task
              match addToConversationHistory st2 sessionId (contEntry2 td newTaskId pageData) now with
              | .error e => (st2, .error e)
              | .ok st3 =>
                let r := sendTaskToExtension st3 session.extensionId task.ref
                if r.2 then (r.1, .ok { isComplete := false, task := some task.ref })
                else (r.1, .error "Extension not connected")

/-! ## The `/start` entry point (routes/ai.js) -/

/-- The successful response of the `/start` route. -/
structure StartOk where
  sessionId : String
  task : TaskRef
  isComplete : Bool
  scheduled : Bool
deriving DecidableEq, Repr

/-- `createAISession`: insert a session row with status `active` and an
empty history. -/
def createAISession (st : St) (id userId extensionId originalPrompt : String)
    (scheduledAt : Option Nat) (now : Nat) : St :=
  { st with
    sessions := st.sessions ++
      [{ id := id, userId := userId, extensionId := extensionId
         originalPrompt := originalPrompt, history := []
         status := "active", scheduledAt := scheduledAt
         createdAt := now, updatedAt := now }] }

/-- The page summary recorded by the `/start` route: `elementCount`
falls back to 0 and absent string fields are modelled as empty strings
when the payload is not in the structured format. -/
def startSummaryOf : PageData → PageInfoSummary
  | .structured p => .info p.url p.title p.interactiveElements.length
  | .rawHtml _ => .info "" "" 0
  | .noInfo => .info "" "" 0

/-- The `/start` route: extract scheduling information (the extraction
itself is the external date parser; its result `cleanPrompt`,
`scheduledAt` is a parameter here), create the session, generate the
first task, and either store it for the scheduler (scheduled) or
dispatch it immediately.  `pageResp` is the outcome of
`requestPageHtmlFromExtension`.  On a thrown error the returned state
keeps every mutation made before the throw. -/
def startRoute (oracle : Nat → OracleResp) (pb : PromptBuilder) (st : St)
    (rawPrompt cleanPrompt : String) (scheduledAt : Option Nat)
    (extensionId : String) (userId : Option String)
    (pageResp : Except String PageData) (sessionId taskId : String) (now : Nat) :
    St × Except String StartOk :=
  if rawPrompt == "" || extensionId == "" then
    (st, .error "Missing required fields: prompt, extensionId")
  else
    let uid := userId.getD "anonymous"
    let isScheduled := scheduledAt.isSome && Nat.blt now (scheduledAt.getD 0)
    let st0 := createAISession st sessionId uid extensionId cleanPrompt
      (if isScheduled then scheduledAt else none) now
    if isScheduled then
      let pageInfo : Option PageData :=
        match pageResp with
        | .ok pd => some pd
        | .error _ => none
      let taskData : Except String TaskData :=
        match pageInfo with
        | some pd => (generateTask oracle (pb cleanPrompt pd [])).2
        | none =>
          .ok { type := "navigate", params := [("url", JVal.str "about:blank")]
                reasoning := "Scheduled task - will be executed at scheduled time"
                isComplete := false }
      match taskData with
      | .error e => (st0, .error e)
      | .ok td =>
        let task : Task :=
          { id := taskId, userId := uid, extensionId := some extensionId
            type := td.type, params := td.params, reasoning := some td.reasoning
            status := "pending", result := none, error := none
            scheduledAt := scheduledAt, createdAt := now, startedAt := none
            completedAt := none }
        let st1 := createTask st0 task
        let entry : HistoryEntry :=
          { task := some { id := some taskId, type := td.type, params := td.params }
            reasoning := some td.reasoning
            result := none, error := none
            pageInfo := (pageInfo.map startSummaryOf)
            timestamp := 0 }
        match addToConversationHistory st1 sessionId entry now with
        | .error e => (st1, .error e)
        | .ok st2 =>
          (st2, .ok { sessionId := sessionId, task := task.ref, isComplete := false
                      scheduled := true })
    else
      match pageResp with
      | .error e => (st0, .error e)
      | .ok pd =>
        if pd == PageData.noInfo then
          (st0, .error "Failed to get page info from extension")
        else
          match (generateTask oracle (pb cleanPrompt pd [])).2 with
          | .error e => (st0, .error e)
          | .ok td =>
            let task : Task :=
              { id := taskId, userId := uid, extensionId := some extensionId
                type := td.type, params := td.params, reasoning := some td.reasoning
                status := "pending", result := none, error := none
                scheduledAt := none, createdAt := now, startedAt := none
                completedAt := none }
            let st1 := createTask st0 task
            let entry : HistoryEntry :=
              { task := some { id := some taskId, type := td.type, params := td.params }
                reasoning := some td.reasoning
                result := none, error := none
                pageInfo := some (startSummaryOf pd)
                timestamp := 0 }
            match addToConversationHistory st1 sessionId entry now with
            | .error e => (st1, .error e)
            | .ok st2 =>
              let r := sendTaskToExtension st2 extensionId task.ref
              if r.2 then
                (r.1, .ok { sessionId := sessionId, task := task.ref
                            isComplete := td.isComplete, scheduled := false })
              else (r.1, .error "Extension not connected")

/-! ## The scheduler (services/scheduler.js) -/

/-- A page responder maps an extension id to the outcome of
`requestPageHtmlFromExtension` for that extension (a timeout or
disconnect rejection is an error). -/
def PageResp : Type := String → Except String PageData

/-- `executeScheduledTask`: mark the task started, then either resume
its AI session through the sequencing loop (failing the task when the
extension is unreachable, the snapshot request fails, or the loop
throws), or dispatch the standalone task directly. -/
def executeScheduledTask (oracle : Nat → OracleResp) (pb : PromptBuilder)
    (pageResp : PageResp) (st : St) (task : Task) (newTaskId : String) (now : Nat) : St :=
  let aiSession := getAISessionByTaskId st task.id
  let stA := updateTaskStatus st task.id "started" none none now
  match aiSession with
  | some s =>
    if !(stA.connections.contains s.extensionId) then
      updateTaskStatus stA task.id "failed" none (some "Extension not connected") now
    else
      match pageResp s.extensionId with
      | .error e =>
        updateTaskStatus stA task.id "failed" none (some ("Failed to get page info: " ++ e)) now
      | .ok pd =>
        if pd == PageData.noInfo then
          updateTaskStatus stA task.id "failed" none (some "No page info received") now
        else
          let lr : LastResult :=
            { task := some { id := none, type := task.type, params := task.params
                             reasoning := none }
              reasoning := task.reasoning
              result := none, error := none }
          let r := continueTaskSequence oracle pb stA s.id pd (some lr) newTaskId now
          match r.2 with
          | .ok _ => r.1
          | .error e => updateTaskStatus r.1 task.id "failed" none (some e) now
  | none =>
    match task.extensionId with
    | none => updateTaskStatus stA task.id "failed" none (some "No extension_id specified") now
    | some ext =>
      if !(stA.connections.contains ext) then
        updateTaskStatus stA task.id "failed" none (some "Extension not connected") now
      else
        let r := sendTaskToExtension stA ext task.ref
        if r.2 then r.1
        else updateTaskStatus r.1 task.id "failed" none (some "Failed to send task to extension") now

/-- The verification pass over the due-task list: re-fetch each task
from the current store and keep it only when its status is still
`pending` (the double-check against concurrent completion).  The due
list may be a stale snapshot of an earlier store state. -/
def schedulerVerifyTasks (dueList : List Task) (st : St) : List Task :=
  match dueList with
  | [] => []
  | t :: rest =>
    match getTask st t.id with
    | some cur =>
      if cur.status == "pending" then cur :: schedulerVerifyTasks rest st
      else schedulerVerifyTasks rest st
    | none => schedulerVerifyTasks rest st

/-- The 5 minute stuck-task cutoff, in milliseconds. -/
def STUCK_CUTOVER_MS : Nat := 5 * 60 * 1000

/-- The stuck filter of the scheduler: a scheduled task whose time has
passed, in `started` status, whose `started_at` is missing or more than
5 minutes old. -/
def isStuck (now : Nat) (t : Task) : Bool :=
  t.scheduledAt.isSome && Nat.ble (t.scheduledAt.getD 0) now && t.status == "started" &&
    (t.startedAt.isNone || Nat.blt (t.startedAt.getD 0) (now - STUCK_CUTOVER_MS))

/-- The execution loop over the verified due tasks: execute each in
order, recording its id and minting a fresh task id per execution. -/
def execDueLoop (oracle : Nat → OracleResp) (pb : PromptBuilder) (pageResp : PageResp)
    (freshId : Nat → String) (now : Nat) :
    List Task → St × List String × Nat → St × List String × Nat
  | [], acc => acc
  | t :: rest, acc =>
    execDueLoop oracle pb pageResp freshId now rest
      (executeScheduledTask oracle pb pageResp acc.1 t (freshId acc.2.2) now,
        acc.2.1 ++ [t.id], acc.2.2 + 1)

/-- The stuck-task reset loop: set each listed task's status back to
`pending`. -/
def resetStuckLoop (now : Nat) : List Task → St → St
  | [], st => st
  | t :: rest, st =>
    resetStuckLoop now rest (updateTaskStatus st t.id "pending" none none now)

/-- The due-AI-session loop: for each due session, fetch its first
stored task and execute it when it is still pending. -/
def execSessionsLoop (oracle : Nat → OracleResp) (pb : PromptBuilder) (pageResp : PageResp)
    (freshId : Nat → String) (now : Nat) :
    List Session → St × List String × Nat → St × List String × Nat
  | [], acc => acc
  | s :: rest, acc =>
    let acc1 :=
      match s.history.find? (fun e => e.task.isSome) with
      | some entry =>
        match entry.task with
        | some tr =>
          match tr.id with
          | some tid =>
            match getTask acc.1 tid with
            | some task =>
              if task.status == "pending" then
                (executeScheduledTask oracle pb pageResp acc.1 task (freshId acc.2.2) now,
                  acc.2.1 ++ [task.id], acc.2.2 + 1)
              else acc
            | none => acc
          | none => acc
        | none => acc
      | none => acc
    execSessionsLoop oracle pb pageResp freshId now rest acc1

/-- One scheduler tick (`checkAndExecuteScheduledTasks`).  When due
tasks exist: verify each is still pending and execute it.  Otherwise:
reset tasks stuck in `started` (among the anonymous user's 100 most
recent) to `pending`.  In both cases, then start each due scheduled AI
session whose first stored task is still pending.  `freshId n` supplies
the n-th task id minted during the tick.  Returns the resulting state
and the ids of the tasks handed to `executeScheduledTask`, in order. -/
def checkAndExecuteScheduledTasks (oracle : Nat → OracleResp) (pb : PromptBuilder)
    (pageResp : PageResp) (freshId : Nat → String) (st : St) (now : Nat) :
    St × List String :=
  let dueTasks := getDueScheduledTasks st now
  let phase1 : St × List String × Nat :=
    if dueTasks.length > 0 then
      let verified := schedulerVerifyTasks dueTasks st
      execDueLoop oracle pb pageResp freshId now verified (st, [], 0)
    else
      let allTasks := getTasksByUser st "anonymous" 100
      let stuckTasks := allTasks.filter (isStuck now)
      (resetStuckLoop now stuckTasks st, [], 0)
  let dueAISessions := getScheduledAISessions phase1.1 now
  let phase2 :=
    execSessionsLoop oracle pb pageResp freshId now dueAISessions phase1
  (phase2.1, phase2.2.1)

/-! ## Pending page-snapshot requests (routes/ai.js) -/

/-- The pending page-snapshot request registry together with the log of
settlements.  An id is in `pending` exactly when its map entry exists —
and, by the code's discipline, exactly when its 10-second timer is still
armed: `handlePageHtmlResponse` clears the timer whenever it deletes the
entry, and the timer callback deletes the entry when it fires.  A
settlement `(id, true)` is a resolution by a page payload, `(id, false)`
a rejection by the timeout. -/
structure PendingSt where
  pending : List String
  settled : List (String × Bool)
deriving DecidableEq, Repr

/-- `requestPageHtmlFromExtension`: reject outright when the extension
has no open connection; otherwise register the request id (and arm its
timer) and send the snapshot request. -/
def requestPageHtml (s : PendingSt) (connected : Bool) (requestId : String) :
    PendingSt × Bool :=
  if connected then ({ s with pending := s.pending ++ [requestId] }, true)
  else (s, false)

/-- `handlePageHtmlResponse`: when the request id has a pending entry,
clear its timer, delete the entry and resolve the promise; otherwise do
nothing. -/
def handlePageHtmlResponse (s : PendingSt) (requestId : String) : PendingSt :=
  if s.pending.contains requestId then
    { pending := s.pending.erase requestId, settled := s.settled ++ [(requestId, true)] }
  else s

/-- The 10-second timeout callback for a request id.  It can only run
while the timer is armed, which coincides with the entry being pending;
it deletes the entry and rejects the promise. -/
def fireTimeout (s : PendingSt) (requestId : String) : PendingSt :=
  if s.pending.contains requestId then
    { pending := s.pending.erase requestId, settled := s.settled ++ [(requestId, false)] }
  else s

/-- An event of the pending-request subsystem: a `page_html` message
carrying a request id arrives, or a request's 10-second timer fires. -/
inductive PendingEv where
  | respond : String → PendingEv
  | timeout : String → PendingEv
deriving DecidableEq, Repr

/-- Apply one event. -/
def pendingStep (s : PendingSt) : PendingEv → PendingSt
  | .respond rid => handlePageHtmlResponse s rid
  | .timeout rid => fireTimeout s rid

/-- Run a sequence of events. -/
def runPending (s : PendingSt) (evs : List PendingEv) : PendingSt :=
  evs.foldl pendingStep s

/-- How many times a request id has settled. -/
def settleCount (s : PendingSt) (rid : String) : Nat :=
  s.settled.countP (fun p => p.1 == rid)

/-! ## General lemmas about the store accessors -/

theorem getTask_id {st : St} {tid : String} {y : Task} (h : getTask st tid = some y) :
    y.id = tid := by
  have hp := List.find?_some h
  simpa using hp

theorem getTask_mem {st : St} {tid : String} {y : Task} (h : getTask st tid = some y) :
    y ∈ st.tasks :=
  List.mem_of_find?_eq_some h

theorem getAISession_id {st : St} {sid : String} {s : Session}
    (h : getAISession st sid = some s) : s.id = sid := by
  have hp := List.find?_some h
  simpa using hp

theorem find?_map_keyed {α : Type} (key : α → String) (f : α → α)
    (hk : ∀ x, key (f x) = key x) (v : String) :
    ∀ l : List α,
      (l.map f).find? (fun x => key x == v) = (l.find? (fun x => key x == v)).map f
  | [] => rfl
  | a :: l => by
    by_cases h : key a = v
    · simp [List.find?, hk, h]
    · have hb : (key a == v) = false := by simp [h]
      simp [List.find?, hk, hb, find?_map_keyed key f hk v l]

theorem getTask_updateTaskStatus (st : St) (a stt : String) (r e : Option String)
    (n : Nat) (tid : String) :
    getTask (updateTaskStatus st a stt r e n) tid =
      (getTask st tid).map (applyTaskStatus a stt r e n) := by
  unfold getTask updateTaskStatus
  exact find?_map_keyed Task.id (applyTaskStatus a stt r e n)
    (fun t => by unfold applyTaskStatus; split <;> rfl) tid st.tasks

theorem applyTaskStatus_id (a stt : String) (r e : Option String) (n : Nat) (t : Task) :
    (applyTaskStatus a stt r e n t).id = t.id := by
  unfold applyTaskStatus; split <;> rfl

theorem getTask_update_other {st : St} {tid : String} {y : Task}
    (h : getTask st tid = some y) (a stt : String) (r e : Option String) (n : Nat)
    (hne : tid ≠ a) :
    getTask (updateTaskStatus st a stt r e n) tid = some y := by
  rw [getTask_updateTaskStatus, h]
  have hid : y.id = tid := getTask_id h
  unfold applyTaskStatus
  simp [hid, hne]

theorem getTask_update_self {st : St} {tid : String} {y : Task}
    (h : getTask st tid = some y) (stt : String) (r e : Option String) (n : Nat) :
    getTask (updateTaskStatus st tid stt r e n) tid =
      some (applyTaskStatus tid stt r e n y) := by
  rw [getTask_updateTaskStatus, h]
  rfl

theorem applyTaskStatus_self_status (tid stt : String) (r e : Option String) (n : Nat)
    {y : Task} (hid : y.id = tid) :
    (applyTaskStatus tid stt r e n y).status = stt ∧
    (applyTaskStatus tid stt r e n y).scheduledAt = y.scheduledAt ∧
    (applyTaskStatus tid stt r e n y).id = y.id := by
  unfold applyTaskStatus
  rw [hid]
  simp

theorem getTask_createTask_of_some {st : St} {tid : String} {y : Task}
    (h : getTask st tid = some y) (u : Task) :
    getTask (createTask st u) tid = some y := by
  unfold getTask at h ⊢
  unfold createTask
  simp only [List.find?_append, h, Option.or]

theorem getTask_congr {st1 st2 : St} (h : st1.tasks = st2.tasks) (tid : String) :
    getTask st1 tid = getTask st2 tid := by
  unfold getTask
  rw [h]

theorem getAISession_congr {st1 st2 : St} (h : st1.sessions = st2.sessions)
    (sid : String) : getAISession st1 sid = getAISession st2 sid := by
  unfold getAISession
  rw [h]

theorem getAISession_updateAISession (st : St) (sid' : String) (a : Option String)
    (b : Option (List HistoryEntry)) (n : Nat) (sid : String) :
    getAISession (updateAISession st sid' a b n) sid =
      (getAISession st sid).map (applySessionUpdate sid' a b n) := by
  unfold getAISession updateAISession
  exact find?_map_keyed Session.id (applySessionUpdate sid' a b n)
    (fun s => by unfold applySessionUpdate; split <;> rfl) sid st.sessions

theorem getAISession_update_self {st : St} {sid : String} {s : Session}
    (h : getAISession st sid = some s) (a : Option String)
    (b : Option (List HistoryEntry)) (n : Nat) :
    getAISession (updateAISession st sid a b n) sid =
      some { s with status := a.getD s.status, history := b.getD s.history,
                    updatedAt := n } := by
  rw [getAISession_updateAISession, h]
  have hid : s.id = sid := getAISession_id h
  unfold applySessionUpdate
  simp [hid]

theorem tasks_updateAISession (st : St) (sid : String) (a : Option String)
    (b : Option (List HistoryEntry)) (n : Nat) :
    (updateAISession st sid a b n).tasks = st.tasks := rfl

theorem sent_updateAISession (st : St) (sid : String) (a : Option String)
    (b : Option (List HistoryEntry)) (n : Nat) :
    (updateAISession st sid a b n).sent = st.sent := rfl

theorem connections_updateAISession (st : St) (sid : String) (a : Option String)
    (b : Option (List HistoryEntry)) (n : Nat) :
    (updateAISession st sid a b n).connections = st.connections := rfl

theorem sent_updateTaskStatus (st : St) (a stt : String) (r e : Option String)
    (n : Nat) : (updateTaskStatus st a stt r e n).sent = st.sent := rfl

theorem connections_updateTaskStatus (st : St) (a stt : String) (r e : Option String)
    (n : Nat) : (updateTaskStatus st a stt r e n).connections = st.connections := rfl

theorem sessions_createTask (st : St) (u : Task) :
    (createTask st u).sessions = st.sessions := rfl

theorem sent_createTask (st : St) (u : Task) : (createTask st u).sent = st.sent := rfl

theorem connections_createTask (st : St) (u : Task) :
    (createTask st u).connections = st.connections := rfl

theorem addToConversationHistory_ok {st : St} {sid : String} {s : Session}
    (hs : getAISession st sid = some s) (e : HistoryEntry) (n : Nat) :
    addToConversationHistory st sid e n =
      .ok (updateAISession st sid none
        (some (s.history ++ [{ e with timestamp := n }])) n) := by
  unfold addToConversationHistory
  rw [hs]

/-! ## General lemmas about the planner retry loop -/

theorem genLoop_result_indep (oracle : Nat → OracleResp) :
    ∀ (fuel attempt : Nat) (fp fp' : String) (le le' : Option String),
      (genLoop oracle fp fuel attempt le).2 = (genLoop oracle fp' fuel attempt le').2
  | 0, _, _, _, _, _ => rfl
  | fuel + 1, attempt, fp, fp', le, le' => by
    simp only [genLoop]
    cases h : parseOracleResp (oracle (attempt + 1)) with
    | ok td => rfl
    | error e =>
      by_cases hm : MAX_RETRIES ≤ attempt + 1
      · simp [hm]
      · simp only [hm, if_false]
        exact genLoop_result_indep oracle fuel (attempt + 1) fp fp' (some e) (some e)

theorem generateTask_result_indep (oracle : Nat → OracleResp) (fp fp' : String) :
    (generateTask oracle fp).2 = (generateTask oracle fp').2 := by
  unfold generateTask
  simp only
  rw [genLoop_result_indep oracle MAX_RETRIES 0 fp fp' none none]

theorem parseOracleResp_ok_valid {r : OracleResp} {td : TaskData}
    (h : parseOracleResp r = .ok td) : td.type ∈ validTypes := by
  cases r with
  | noJson => simp [parseOracleResp] at h
  | badJson m => simp [parseOracleResp] at h
  | obj ty ps rsn c =>
    cases ty with
    | none => simp [parseOracleResp] at h
    | some t =>
      cases ps with
      | none => simp [parseOracleResp] at h
      | some p =>
        simp only [parseOracleResp] at h
        by_cases hv : t ∈ validTypes
        · simp [hv] at h
          cases h
          exact hv
        · simp [hv] at h

theorem genLoop_ok_valid (oracle : Nat → OracleResp) (fp : String) :
    ∀ (fuel attempt : Nat) (le : Option String) {td : TaskData},
      (genLoop oracle fp fuel attempt le).2 = .ok td →
      td.type ∈ validTypes
  | 0, _, _, _, h => by simp [genLoop] at h
  | fuel + 1, attempt, le, td, h => by
    simp only [genLoop] at h
    cases hp : parseOracleResp (oracle (attempt + 1)) with
    | ok td' =>
      rw [hp] at h
      simp only [Except.ok.injEq] at h
      cases h
      exact parseOracleResp_ok_valid hp
    | error e =>
      rw [hp] at h
      by_cases hm : MAX_RETRIES ≤ attempt + 1
      · simp [hm] at h
      · simp only [hm, if_false] at h
        exact genLoop_ok_valid oracle fp fuel (attempt + 1) (some e) h

theorem generateTask_eta_ok {oracle : Nat → OracleResp} {td : TaskData}
    (hgen : (generateTask oracle "").2 = .ok td) (q : String) :
    generateTask oracle q = ((generateTask oracle q).1, Except.ok td) := by
  have h2 : (generateTask oracle q).2 = .ok td :=
    (generateTask_result_indep oracle q "").trans hgen
  rw [← h2]

theorem generateTask_eta_error {oracle : Nat → OracleResp} {e : String}
    (hgen : (generateTask oracle "").2 = .error e) (q : String) :
    generateTask oracle q = ((generateTask oracle q).1, Except.error e) := by
  have h2 : (generateTask oracle q).2 = .error e :=
    (generateTask_result_indep oracle q "").trans hgen
  rw [← h2]

theorem generateTask_ok_valid {oracle : Nat → OracleResp} {fp : String} {td : TaskData}
    (h : (generateTask oracle fp).2 = .ok td) : td.type ∈ validTypes := by
  unfold generateTask at h
  simp only at h
  cases hg : (genLoop oracle fp MAX_RETRIES 0 none).2 with
  | ok td' =>
    rw [hg] at h
    simp only [Except.ok.injEq] at h
    cases h
    exact genLoop_ok_valid oracle fp MAX_RETRIES 0 none hg
  | error e =>
    rw [hg] at h
    simp at h

theorem jsonEmphasis_length_pos (e : String) : 0 < (jsonEmphasis e).length := by
  unfold jsonEmphasis
  rw [String.length_append]
  have h : 0 < ("\n\nIMPORTANT: You must respond with ONLY valid JSON. No explanations, no markdown, no code blocks. Just the raw JSON object. Previous attempt failed: " : String).length := by
    set_option maxRecDepth 4000 in decide
  omega

/-- Claim C2: against an upstream oracle whose first four responses are
malformed and whose fifth parses and validates, `generateTask` succeeds
on the fifth internal attempt, makes exactly five upstream calls, the
first call carries the plain prompt, and every retry call after the
first carries the added explicit instruction that the output must be
valid JSON (together with the previous attempt's error), each strictly
longer than the original prompt. -/
theorem planner_retry_success (oracle : Nat → OracleResp) (fullPrompt : String)
    (e1 e2 e3 e4 : String) (td : TaskData)
    (h1 : parseOracleResp (oracle 1) = .error e1)
    (h2 : parseOracleResp (oracle 2) = .error e2)
    (h3 : parseOracleResp (oracle 3) = .error e3)
    (h4 : parseOracleResp (oracle 4) = .error e4)
    (h5 : parseOracleResp (oracle 5) = .ok td) :
    generateTask oracle fullPrompt =
      ([fullPrompt,
        fullPrompt ++ jsonEmphasis e1,
        fullPrompt ++ jsonEmphasis e2,
        fullPrompt ++ jsonEmphasis e3,
        fullPrompt ++ jsonEmphasis e4], .ok td) ∧
    (generateTask oracle fullPrompt).1.length = 5 ∧
    ∀ p ∈ (generateTask oracle fullPrompt).1.tail, fullPrompt.length < p.length := by
  have hgen : generateTask oracle fullPrompt =
      ([fullPrompt,
        fullPrompt ++ jsonEmphasis e1,
        fullPrompt ++ jsonEmphasis e2,
        fullPrompt ++ jsonEmphasis e3,
        fullPrompt ++ jsonEmphasis e4], .ok td) := by
    unfold generateTask MAX_RETRIES
    simp [genLoop, h1, h2, h3, h4, h5, MAX_RETRIES]
  refine ⟨hgen, ?_, ?_⟩
  · rw [hgen]
    rfl
  · rw [hgen]
    intro p hp
    simp only [List.tail_cons, List.mem_cons, List.not_mem_nil, or_false] at hp
    have hlen : ∀ e : String, fullPrompt.length < (fullPrompt ++ jsonEmphasis e).length := by
      intro e
      rw [String.length_append]
      have := jsonEmphasis_length_pos e
      omega
    rcases hp with rfl | rfl | rfl | rfl
    · exact hlen e1
    · exact hlen e2
    · exact hlen e3
    · exact hlen e4

/-- Claim C3: against an upstream oracle producing five consecutive
malformed responses, `generateTask` fails (the planner contract
violation) after exactly five upstream calls, and a sequencing-loop turn
driven by that oracle creates no task and dispatches nothing to the
executor. -/
theorem planner_retry_exhaustion (oracle : Nat → OracleResp)
    (e1 e2 e3 e4 e5 : String)
    (h1 : parseOracleResp (oracle 1) = .error e1)
    (h2 : parseOracleResp (oracle 2) = .error e2)
    (h3 : parseOracleResp (oracle 3) = .error e3)
    (h4 : parseOracleResp (oracle 4) = .error e4)
    (h5 : parseOracleResp (oracle 5) = .error e5) :
    (∀ fullPrompt,
      (generateTask oracle fullPrompt).2 =
        .error ("Failed to generate task: Failed to get valid JSON after 5 attempts. Last error: " ++ e5) ∧
      (generateTask oracle fullPrompt).1.length = 5) ∧
    (∀ (pb : PromptBuilder) (st : St) (sid : String) (pd : PageData)
        (lr : Option LastResult) (nid : String) (now : Nat) (s : Session),
      sid ≠ "" → pd ≠ PageData.noInfo →
      getAISession st sid = some s → s.status = "active" →
      (continueTaskSequence oracle pb st sid pd lr nid now).1.tasks = st.tasks ∧
      (continueTaskSequence oracle pb st sid pd lr nid now).1.sent = st.sent ∧
      (continueTaskSequence oracle pb st sid pd lr nid now).2 =
        .error ("Failed to generate task: Failed to get valid JSON after 5 attempts. Last error: " ++ e5)) := by
  have hfail : ∀ fullPrompt, generateTask oracle fullPrompt =
      ([fullPrompt,
        fullPrompt ++ jsonEmphasis e1,
        fullPrompt ++ jsonEmphasis e2,
        fullPrompt ++ jsonEmphasis e3,
        fullPrompt ++ jsonEmphasis e4],
       .error ("Failed to generate task: Failed to get valid JSON after 5 attempts. Last error: " ++ e5)) := by
    intro fullPrompt
    unfold generateTask MAX_RETRIES
    simp [genLoop, h1, h2, h3, h4, h5, MAX_RETRIES]
    rw [← String.append_assoc]
    rfl
  refine ⟨fun fp => ⟨by rw [hfail fp], by rw [hfail fp]; rfl⟩, ?_⟩
  intro pb st sid pd lr nid now s hsid hpd hs hact
  have hsid' : (sid == "") = false := by simp [hsid]
  have hpd' : (pd == PageData.noInfo) = false := by simp [hpd]
  have hact' : (s.status != "active") = false := by simp [hact]
  unfold continueTaskSequence
  rw [hsid', hpd']
  simp only [Bool.false_or, Bool.or_self, if_false]
  rw [hs]
  simp only [hact', if_false]
  rw [addToConversationHistory_ok hs]
  simp only
  rw [hfail]
  simp only
  refine ⟨rfl, rfl, rfl⟩

/-! ## Concrete inputs for witnesses and counterexamples -/

/-- A trivial prompt builder (the planner oracle of this model is
indexed by attempt number, so prompt text does not influence it). -/
def trivPB : PromptBuilder := fun _ _ _ => ""

/-- A concrete upstream oracle: four malformed responses, then a valid
navigate task. -/
def c2oracle : Nat → OracleResp := fun i =>
  if i ≤ 4 then .noJson
  else .obj (some "navigate") (some [("url", JVal.str "https://example.com")])
    (some "open the page") false

/-- A concrete upstream oracle that never returns JSON. -/
def c3oracle : Nat → OracleResp := fun _ => .noJson

/-- A concrete active session. -/
def wSession : Session :=
  { id := "s1", userId := "u1", extensionId := "e1", originalPrompt := "goal"
    history := [], status := "active", scheduledAt := none, createdAt := 0, updatedAt := 0 }

/-- A concrete store with one active session and a connected extension. -/
def wSt : St := { tasks := [], sessions := [wSession], connections := ["e1"], sent := [] }

/-- A concrete structured page payload. -/
def wPage : PageData := .structured
  { url := "https://example.com", title := "Example", description := none
    headings := [], interactiveElements := [] }

theorem planner_retry_success_witness :
    generateTask c2oracle "PROMPT" =
      (["PROMPT",
        "PROMPT" ++ jsonEmphasis "No JSON found in Gemini response",
        "PROMPT" ++ jsonEmphasis "No JSON found in Gemini response",
        "PROMPT" ++ jsonEmphasis "No JSON found in Gemini response",
        "PROMPT" ++ jsonEmphasis "No JSON found in Gemini response"],
       .ok { type := "navigate", params := [("url", JVal.str "https://example.com")],
             reasoning := "open the page", isComplete := false }) ∧
    (generateTask c2oracle "PROMPT").1.length = 5 :=
  ⟨(planner_retry_success c2oracle "PROMPT"
      "No JSON found in Gemini response" "No JSON found in Gemini response"
      "No JSON found in Gemini response" "No JSON found in Gemini response"
      { type := "navigate", params := [("url", JVal.str "https://example.com")],
        reasoning := "open the page", isComplete := false }
      rfl rfl rfl rfl rfl).1,
   (planner_retry_success c2oracle "PROMPT"
      "No JSON found in Gemini response" "No JSON found in Gemini response"
      "No JSON found in Gemini response" "No JSON found in Gemini response"
      { type := "navigate", params := [("url", JVal.str "https://example.com")],
        reasoning := "open the page", isComplete := false }
      rfl rfl rfl rfl rfl).2.1⟩

theorem planner_retry_exhaustion_witness :
    (generateTask c3oracle "P").2 =
      .error ("Failed to generate task: Failed to get valid JSON after 5 attempts. Last error: " ++ "No JSON found in Gemini response") ∧
    (generateTask c3oracle "P").1.length = 5 ∧
    (continueTaskSequence c3oracle trivPB wSt "s1" wPage none "t1" 7).1.tasks = wSt.tasks ∧
    (continueTaskSequence c3oracle trivPB wSt "s1" wPage none "t1" 7).1.sent = wSt.sent ∧
    (continueTaskSequence c3oracle trivPB wSt "s1" wPage none "t1" 7).2 =
      .error ("Failed to generate task: Failed to get valid JSON after 5 attempts. Last error: " ++ "No JSON found in Gemini response") := by
  have h := planner_retry_exhaustion c3oracle
    "No JSON found in Gemini response" "No JSON found in Gemini response"
    "No JSON found in Gemini response" "No JSON found in Gemini response"
    "No JSON found in Gemini response" rfl rfl rfl rfl rfl
  have h2 := h.2 trivPB wSt "s1" wPage none "t1" 7 wSession
    (by decide) (by decide) rfl rfl
  exact ⟨(h.1 "P").1, (h.1 "P").2, h2.1, h2.2.1, h2.2.2⟩

/-- Claim C5: a step request against a session that is not active fails
with the invalid-state error, leaves the store (hence the session)
unchanged, and makes no planner call and no dispatch (the returned store
is exactly the input store). -/
theorem nonactive_step_rejected (oracle : Nat → OracleResp) (pb : PromptBuilder)
    (st : St) (sid : String) (pd : PageData) (lr : Option LastResult) (nid : String)
    (now : Nat) (s : Session)
    (hsid : sid ≠ "") (hpd : pd ≠ PageData.noInfo)
    (hs : getAISession st sid = some s) (hna : s.status ≠ "active") :
    continueTaskSequence oracle pb st sid pd lr nid now =
      (st, .error ("Session is not active (status: " ++ s.status ++ ")")) := by
  have hsid' : (sid == "") = false := by simp [hsid]
  have hpd' : (pd == PageData.noInfo) = false := by simp [hpd]
  have hna' : (s.status != "active") = true := by simp [hna]
  unfold continueTaskSequence
  rw [hsid', hpd']
  simp only [Bool.false_or, Bool.or_self, if_false]
  rw [hs]
  simp [hna']

/-- A concrete completed session and store for the C5 witness. -/
def c5Session : Session :=
  { id := "s2", userId := "u1", extensionId := "e1", originalPrompt := "goal"
    history := [], status := "completed", scheduledAt := none, createdAt := 0, updatedAt := 0 }

/-- Store holding the completed session. -/
def c5St : St := { tasks := [], sessions := [c5Session], connections := ["e1"], sent := [] }

theorem nonactive_step_rejected_witness :
    continueTaskSequence c3oracle trivPB c5St "s2" wPage none "t1" 7 =
      (c5St, .error ("Session is not active (status: " ++ "completed" ++ ")")) :=
  nonactive_step_rejected c3oracle trivPB c5St "s2" wPage none "t1" 7 c5Session
    (by decide) (by decide) rfl (by decide)

/-- Claim C1 (amended): in every `continueTaskSequence` turn in which the
planner adapter returns `isComplete = true`, the session is marked
`completed` and nothing is dispatched: the store's dispatch log and task
table are unchanged.  (The `/start` entry point does not behave this
way; see the counterexample.) -/
theorem continue_complete_marks_completed (oracle : Nat → OracleResp)
    (pb : PromptBuilder) (st : St) (sid : String) (pd : PageData)
    (lr : Option LastResult) (nid : String) (now : Nat) (s : Session) (td : TaskData)
    (hsid : sid ≠ "") (hpd : pd ≠ PageData.noInfo)
    (hs : getAISession st sid = some s) (hact : s.status = "active")
    (hgen : (generateTask oracle "").2 = .ok td) (hcomp : td.isComplete = true) :
    (continueTaskSequence oracle pb st sid pd lr nid now).2 =
      .ok { isComplete := true, task := none } ∧
    (continueTaskSequence oracle pb st sid pd lr nid now).1.sent = st.sent ∧
    (continueTaskSequence oracle pb st sid pd lr nid now).1.tasks = st.tasks ∧
    (getAISession (continueTaskSequence oracle pb st sid pd lr nid now).1 sid).map
      Session.status = some "completed" := by
  have hsid' : (sid == "") = false := by simp [hsid]
  have hpd' : (pd == PageData.noInfo) = false := by simp [hpd]
  have hact' : (s.status != "active") = false := by simp [hact]
  unfold continueTaskSequence
  rw [hsid', hpd']
  simp only [Bool.false_or, Bool.or_self, if_false]
  rw [hs]
  simp only [hact', Bool.false_eq_true, if_false]
  simp only [addToConversationHistory_ok hs]
  rw [generateTask_eta_ok hgen]
  simp only [hcomp, if_true]
  refine ⟨by trivial, by trivial, by trivial, ?_⟩
  have hs1 := getAISession_update_self hs none
    (some (s.history ++ [{ contEntry1 lr pd with timestamp := now }])) now
  rw [getAISession_update_self hs1 (some "completed") none now]
  rfl

/-- The oracle for the C1 counterexample: the planner immediately judges
the goal complete while also proposing a navigate action. -/
def c1oracle : Nat → OracleResp := fun _ =>
  .obj (some "navigate") (some [("url", JVal.str "https://example.com")]) (some "done") true

/-- The task payload the C1 counterexample dispatches. -/
def c1task : TaskRef :=
  { id := some "task1", type := "navigate"
    params := [("url", JVal.str "https://example.com")] }

/-- The `/start` run of the C1 counterexample: empty store, extension
`e1` connected, planner returns `isComplete = true` on the first turn. -/
def c1run : St × Except String StartOk :=
  startRoute c1oracle trivPB
    { tasks := [], sessions := [], connections := ["e1"], sent := [] }
    "go" "go" none "e1" none (.ok wPage) "sess1" "task1" 5

/-- Claim C1 counterexample: on the very first turn via `/start`, the
planner returns `isComplete = true`, yet the generated action IS
dispatched to the extension and the session stays `active` (it is not
transitioned to `completed`), contradicting the claim for the `/start`
entry point. -/
theorem start_dispatches_despite_complete :
    c1run.2 =
      .ok { sessionId := "sess1", task := c1task, isComplete := true, scheduled := false } ∧
    c1run.1.sent = [{ extensionId := "e1", task := c1task }] ∧
    (getAISession c1run.1 "sess1").map Session.status = some "active" :=
  ⟨rfl, rfl, rfl⟩

/-- The oracle for the C1 witness: the planner judges the goal complete. -/
def c1wOracle : Nat → OracleResp := fun _ =>
  .obj (some "wait") (some [("duration", JVal.num 1000)]) (some "done") true

theorem continue_complete_marks_completed_witness :
    (continueTaskSequence c1wOracle trivPB wSt "s1" wPage none "t1" 7).2 =
      .ok { isComplete := true, task := none } ∧
    (continueTaskSequence c1wOracle trivPB wSt "s1" wPage none "t1" 7).1.sent = wSt.sent ∧
    (continueTaskSequence c1wOracle trivPB wSt "s1" wPage none "t1" 7).1.tasks = wSt.tasks ∧
    (getAISession (continueTaskSequence c1wOracle trivPB wSt "s1" wPage none "t1" 7).1
      "s1").map Session.status = some "completed" :=
  continue_complete_marks_completed c1wOracle trivPB wSt "s1" wPage none "t1" 7 wSession
    { type := "wait", params := [("duration", JVal.num 1000)], reasoning := "done",
      isComplete := true }
    (by decide) (by decide) rfl rfl rfl rfl

/-- Claim C6 (amended): for every action produced by the planner
adapter, the kind is validated to be one of the six declared kinds and
the presence of the `type` and `params` fields is validated; but
kind-specific parameter shapes are NOT validated, so whatever the
parameters are — including malformed ones such as `navigate` without a
URL — the action is dispatched to the executor unchanged. -/
theorem planner_kind_validated_params_dispatched (oracle : Nat → OracleResp)
    (pb : PromptBuilder) (st : St) (sid : String) (pd : PageData)
    (lr : Option LastResult) (nid : String) (now : Nat) (s : Session) (td : TaskData)
    (hsid : sid ≠ "") (hpd : pd ≠ PageData.noInfo)
    (hs : getAISession st sid = some s) (hact : s.status = "active")
    (hgen : (generateTask oracle "").2 = .ok td) (hcomp : td.isComplete = false)
    (hconn : st.connections.contains s.extensionId = true) :
    td.type ∈ validTypes ∧
    (continueTaskSequence oracle pb st sid pd lr nid now).1.sent =
      st.sent ++ [{ extensionId := s.extensionId,
                    task := { id := some nid, type := td.type, params := td.params } }] ∧
    (continueTaskSequence oracle pb st sid pd lr nid now).2 =
      .ok { isComplete := false,
            task := some { id := some nid, type := td.type, params := td.params } } := by
  refine ⟨generateTask_ok_valid hgen, ?_⟩
  have hsid' : (sid == "") = false := by simp [hsid]
  have hpd' : (pd == PageData.noInfo) = false := by simp [hpd]
  have hact' : (s.status != "active") = false := by simp [hact]
  unfold continueTaskSequence
  rw [hsid', hpd']
  simp only [Bool.false_or, Bool.or_self, if_false]
  rw [hs]
  simp only [hact', Bool.false_eq_true, if_false]
  simp only [addToConversationHistory_ok hs]
  rw [generateTask_eta_ok hgen]
  simp only [hcomp, Bool.false_eq_true, if_false]
  have hs1 := getAISession_update_self hs none
    (some (s.history ++ [{ contEntry1 lr pd with timestamp := now }])) now
  have hs2 : getAISession
      (createTask
        (updateAISession st sid none
          (some (s.history ++ [{ contEntry1 lr pd with timestamp := now }])) now)
        (contTask s td nid now)) sid =
      some { s with
             history := s.history ++ [{ contEntry1 lr pd with timestamp := now }]
             updatedAt := now } := by
    rw [getAISession_congr (sessions_createTask _ _) sid]
    exact hs1
  simp only [addToConversationHistory_ok hs2]
  unfold sendTaskToExtension
  simp only [connections_updateAISession, connections_createTask, hconn, if_true]
  exact ⟨rfl, rfl⟩

/-- The oracle for the C6 counterexample: a structurally valid response
whose kind is `navigate` but whose params object is empty — no URL. -/
def c6oracle : Nat → OracleResp := fun _ =>
  .obj (some "navigate") (some ([] : Params)) none false

/-- The sequencing-loop run of the C6 counterexample. -/
def c6run : St × Except String ContinueOk :=
  continueTaskSequence c6oracle trivPB wSt "s1" wPage none "t9" 50

/-- Claim C6 counterexample: the planner returns a `navigate` action
with an empty parameter object (no URL string).  The action passes
validation and IS dispatched to the executor, contradicting the claim
that malformed parameters are never dispatched and are recorded as an
immediate error outcome. -/
theorem malformed_params_dispatched :
    c6run.1.sent =
      [{ extensionId := "e1", task := { id := some "t9", type := "navigate", params := [] } }] ∧
    c6run.2 =
      .ok { isComplete := false,
            task := some { id := some "t9", type := "navigate", params := [] } } :=
  ⟨rfl, rfl⟩

theorem planner_kind_validated_params_dispatched_witness :
    ("navigate" : String) ∈ validTypes ∧
    c6run.1.sent =
      wSt.sent ++ [{ extensionId := "e1",
                     task := { id := some "t9", type := "navigate", params := [] } }] ∧
    c6run.2 =
      .ok { isComplete := false,
            task := some { id := some "t9", type := "navigate", params := [] } } :=
  planner_kind_validated_params_dispatched c6oracle trivPB wSt "s1" wPage none "t9" 50
    wSession { type := "navigate", params := [], reasoning := "No reasoning provided",
               isComplete := false }
    (by decide) (by decide) rfl rfl rfl rfl rfl

/-- The page of the C4 failing input: two label-free elements, the
second of which does not fit the budget. -/
def c4page : PageData := .structured
  { url := "u", title := "t", description := none, headings := []
    interactiveElements :=
      [ { type := "a", selector := "s", label := none, value := none },
        { type := "a", selector := "x", label := none, value := none } ] }

/-- Claim C4: evaluation of `truncatePageContext` at the failing input.
With a budget of 158 characters the element list is truncated after the
first element and the truncation notice is present — but the produced
context is 222 characters long, exceeding the budget.  The greedy loop
reserves only 50 characters for the closing text, while the closing
header text and the truncation note together are far longer, so the
claimed size invariant (total length at most the budget) fails. -/
theorem truncatePageContext_exceeds_budget :
    truncatePageContext c4page 158 =
      "Current page information:\nURL: u\nTitle: t\nInteractive elements (2 total, showing first 1 due to token limit):\n1. a - Selector: \"s\"\n\n[Note: Page has 2 total interactive elements, but only showing first 1 due to token limit]" ∧
    (truncatePageContext c4page 158).length = 222 ∧
    158 < (truncatePageContext c4page 158).length := by
  refine ⟨by set_option maxRecDepth 10000 in decide, by set_option maxRecDepth 10000 in decide,
    by set_option maxRecDepth 10000 in decide⟩

/-- Claim C9: `addToConversationHistory` is append-only.  When the
session exists, the call succeeds, the new history is exactly the old
history with the timestamped entry appended — so the length grows by
exactly one, prior entries are preserved at their indices, and no entry
is removed or reordered. -/
theorem history_append_only (st : St) (sid : String) (e : HistoryEntry) (now : Nat)
    (s : Session) (hs : getAISession st sid = some s) :
    addToConversationHistory st sid e now =
      .ok (updateAISession st sid none
        (some (s.history ++ [{ e with timestamp := now }])) now) ∧
    (getAISession
        (updateAISession st sid none
          (some (s.history ++ [{ e with timestamp := now }])) now) sid).map
      Session.history = some (s.history ++ [{ e with timestamp := now }]) ∧
    (s.history ++ [{ e with timestamp := now }]).length = s.history.length + 1 ∧
    (∀ (i : Nat) (hi : i < s.history.length)
        (hi' : i < (s.history ++ [{ e with timestamp := now }]).length),
      (s.history ++ [{ e with timestamp := now }]).get ⟨i, hi'⟩ =
        s.history.get ⟨i, hi⟩) := by
  refine ⟨addToConversationHistory_ok hs e now, ?_, by simp, ?_⟩
  · rw [getAISession_update_self hs]
    rfl
  · intro i hi hi'
    simp [List.getElem_append_left, hi]

/-- A history entry for the C9 witness. -/
def c9entry : HistoryEntry :=
  { task := some { id := some "t1", type := "navigate", params := [] }
    reasoning := some "start", result := none, error := none
    pageInfo := none, timestamp := 0 }

theorem history_append_only_witness :
    addToConversationHistory wSt "s1" c9entry 99 =
      .ok (updateAISession wSt "s1" none
        (some (wSession.history ++ [{ c9entry with timestamp := 99 }])) 99) ∧
    (getAISession
        (updateAISession wSt "s1" none
          (some (wSession.history ++ [{ c9entry with timestamp := 99 }])) 99) "s1").map
      Session.history = some (wSession.history ++ [{ c9entry with timestamp := 99 }]) ∧
    (wSession.history ++ [{ c9entry with timestamp := 99 }]).length =
      wSession.history.length + 1 :=
  ⟨(history_append_only wSt "s1" c9entry 99 wSession rfl).1,
   (history_append_only wSt "s1" c9entry 99 wSession rfl).2.1,
   (history_append_only wSt "s1" c9entry 99 wSession rfl).2.2.1⟩

/-! ## C10: the pending page-snapshot request registry -/

/-- The per-request invariant: a request id settles at most once, and
once settled it no longer has a pending entry (the settled count plus
the pending count is at most one). -/
def pendingWF (s : PendingSt) (rid : String) : Prop :=
  settleCount s rid + s.pending.count rid ≤ 1

theorem settle_wf {s : PendingSt} {rid rid' : String} (b : Bool)
    (hmem : rid' ∈ s.pending) (h : pendingWF s rid) :
    pendingWF
      { pending := s.pending.erase rid', settled := s.settled ++ [(rid', b)] } rid := by
  unfold pendingWF settleCount at h ⊢
  simp only [List.countP_append, List.countP_cons, List.countP_nil]
  by_cases heq : rid' = rid
  · subst heq
    have hcnt : (s.pending.erase rid').count rid' = s.pending.count rid' - 1 := by
      rw [List.count_erase_self]
    have hpos : 1 ≤ s.pending.count rid' := List.one_le_count_iff.mpr hmem
    simp only [hcnt]
    simp
    omega
  · have hcnt : (s.pending.erase rid').count rid = s.pending.count rid :=
      List.count_erase_of_ne (fun hh => heq hh.symm) s.pending
    have hb : (rid' == rid) = false := by simp [heq]
    simp only [hcnt, hb]
    simpa using h

theorem pendingStep_wf {s : PendingSt} {rid : String} (ev : PendingEv)
    (h : pendingWF s rid) : pendingWF (pendingStep s ev) rid := by
  cases ev with
  | respond rid' =>
    simp only [pendingStep]
    unfold handlePageHtmlResponse
    by_cases hmem : s.pending.contains rid' = true
    · rw [hmem]
      simp only [if_true]
      exact settle_wf true (by simpa using hmem) h
    · simp only [Bool.not_eq_true] at hmem
      rw [hmem]
      simpa using h
  | timeout rid' =>
    simp only [pendingStep]
    unfold fireTimeout
    by_cases hmem : s.pending.contains rid' = true
    · rw [hmem]
      simp only [if_true]
      exact settle_wf false (by simpa using hmem) h
    · simp only [Bool.not_eq_true] at hmem
      rw [hmem]
      simpa using h

theorem runPending_wf (rid : String) :
    ∀ (evs : List PendingEv) (s0 : PendingSt), pendingWF s0 rid →
      pendingWF (runPending s0 evs) rid
  | [], _, h0 => h0
  | ev :: evs, s0, h0 =>
    runPending_wf rid evs (pendingStep s0 ev) (pendingStep_wf ev h0)

/-- Claim C10: every pending page-snapshot request settles at most once.
Starting from any state satisfying the per-request invariant (as a fresh
registration does), after any sequence of `page_html` responses and
timer firings the request has settled at most once; once it has settled
its map entry is gone; settling (either by the first matching response
or by the timeout) removes the map entry and appends exactly one
settlement; and a response whose request id is unknown or already
settled (no pending entry) is ignored with no effect. -/
theorem pending_request_settles_once (s0 : PendingSt) (rid : String)
    (evs : List PendingEv) (h0 : pendingWF s0 rid) :
    settleCount (runPending s0 evs) rid ≤ 1 ∧
    (1 ≤ settleCount (runPending s0 evs) rid → rid ∉ (runPending s0 evs).pending) ∧
    (∀ s : PendingSt, rid ∉ s.pending → handlePageHtmlResponse s rid = s) ∧
    (∀ s : PendingSt, rid ∈ s.pending → pendingWF s rid →
      rid ∉ (handlePageHtmlResponse s rid).pending ∧
      (handlePageHtmlResponse s rid).settled = s.settled ++ [(rid, true)] ∧
      rid ∉ (fireTimeout s rid).pending ∧
      (fireTimeout s rid).settled = s.settled ++ [(rid, false)]) := by
  have hwf := runPending_wf rid evs s0 h0
  unfold pendingWF at hwf
  refine ⟨by omega, ?_, ?_, ?_⟩
  · intro h1
    have hcnt : (runPending s0 evs).pending.count rid = 0 := by omega
    rw [← List.count_eq_zero]
    exact hcnt
  · intro s hnp
    have hc : s.pending.contains rid = false := by
      simpa using hnp
    unfold handlePageHtmlResponse
    rw [hc]
    simp
  · intro s hp hwfs
    have hc : s.pending.contains rid = true := by simpa using hp
    have hcount : 1 ≤ s.pending.count rid := List.one_le_count_iff.mpr hp
    unfold pendingWF at hwfs
    have herase : (s.pending.erase rid).count rid = 0 := by
      rw [List.count_erase_self]
      omega
    have hnm : rid ∉ s.pending.erase rid := by
      rw [← List.count_eq_zero]
      exact herase
    unfold handlePageHtmlResponse fireTimeout
    rw [hc]
    simp only [if_true]
    exact ⟨hnm, by trivial, hnm, by trivial⟩

theorem pending_request_settles_once_witness :
    settleCount
      (runPending { pending := ["r1"], settled := [] }
        [PendingEv.respond "r1", PendingEv.timeout "r1", PendingEv.respond "r1"]) "r1" ≤ 1 ∧
    handlePageHtmlResponse { pending := [], settled := [("r1", true)] } "r1" =
      { pending := [], settled := [("r1", true)] } := by
  have h := pending_request_settles_once { pending := ["r1"], settled := [] } "r1"
    [PendingEv.respond "r1", PendingEv.timeout "r1", PendingEv.respond "r1"]
    (by unfold pendingWF; decide)
  exact ⟨h.1, h.2.2.1 { pending := [], settled := [("r1", true)] } (by decide)⟩

/-! ## Lemmas about the stable sort -/

theorem insertSorted_perm {α : Type} (le : α → α → Bool) (x : α) :
    ∀ l : List α, (insertSorted le x l).Perm (x :: l)
  | [] => List.Perm.refl _
  | y :: l => by
    unfold insertSorted
    by_cases h : le x y = true
    · rw [h]
      simp
    · simp only [Bool.not_eq_true] at h
      rw [h]
      simp only [Bool.false_eq_true, if_false]
      exact ((insertSorted_perm le x l).cons y).trans (List.Perm.swap x y l)

theorem stableSort_perm {α : Type} (le : α → α → Bool) :
    ∀ l : List α, (stableSort le l).Perm l
  | [] => List.Perm.refl _
  | x :: l =>
    (insertSorted_perm le x (stableSort le l)).trans ((stableSort_perm le l).cons x)

theorem mem_stableSort {α : Type} (le : α → α → Bool) (l : List α) (a : α) :
    a ∈ stableSort le l ↔ a ∈ l :=
  (stableSort_perm le l).mem_iff

/-- The primary-key invariant of the tasks table. -/
def taskIdsNodup (st : St) : Prop := (st.tasks.map Task.id).Nodup

theorem task_unique {st : St} (hwf : taskIdsNodup st) {a b : Task}
    (ha : a ∈ st.tasks) (hb : b ∈ st.tasks) (hid : a.id = b.id) : a = b :=
  List.inj_on_of_nodup_map hwf ha hb hid

theorem getTask_of_mem_nodup {st : St} {t : Task} (hwf : taskIdsNodup st)
    (ht : t ∈ st.tasks) : getTask st t.id = some t := by
  cases hfind : getTask st t.id with
  | none =>
    unfold getTask at hfind
    rw [List.find?_eq_none] at hfind
    exact absurd (by simp : (t.id == t.id) = true) (by simpa using hfind t ht)
  | some y =>
    have hy := task_unique hwf (getTask_mem hfind) ht (getTask_id hfind)
    exact congrArg some hy

theorem addToConversationHistory_ok_inv {st : St} {sid : String} {e : HistoryEntry}
    {n : Nat} {st' : St} (h : addToConversationHistory st sid e n = .ok st') :
    ∃ s, getAISession st sid = some s ∧
      st' = updateAISession st sid none
        (some (s.history ++ [{ e with timestamp := n }])) n := by
  unfold addToConversationHistory at h
  cases hs : getAISession st sid with
  | none =>
    rw [hs] at h
    exact absurd h (by simp)
  | some s =>
    rw [hs] at h
    simp only [Except.ok.injEq] at h
    exact ⟨s, rfl, h.symm⟩

theorem getTask_of_tasks_append {st' st : St} {l : List Task} {tid : String} {y : Task}
    (hts : st'.tasks = st.tasks ++ l) (h : getTask st tid = some y) :
    getTask st' tid = some y := by
  unfold getTask at h ⊢
  rw [hts, List.find?_append, h]
  rfl

theorem sendTaskToExtension_fields (st : St) (x : String) (t : TaskRef) :
    (sendTaskToExtension st x t).1.tasks = st.tasks ∧
    (sendTaskToExtension st x t).1.sessions = st.sessions ∧
    (sendTaskToExtension st x t).1.connections = st.connections := by
  unfold sendTaskToExtension
  split <;> exact ⟨rfl, rfl, rfl⟩

/-- The task-table effect of one sequencing-loop turn: either the task
table is unchanged, or exactly the one new task row (with the supplied
fresh id, status pending and no schedule) is appended. -/
theorem continueTaskSequence_tasks (oracle : Nat → OracleResp) (pb : PromptBuilder)
    (st : St) (sid : String) (pd : PageData) (lr : Option LastResult) (nid : String)
    (now : Nat) :
    (continueTaskSequence oracle pb st sid pd lr nid now).1.tasks = st.tasks ∨
    ∃ session td,
      (continueTaskSequence oracle pb st sid pd lr nid now).1.tasks =
        st.tasks ++ [contTask session td nid now] := by
  unfold continueTaskSequence
  split
  · exact Or.inl rfl
  split
  · exact Or.inl rfl
  rename_i session hsession
  split
  · exact Or.inl rfl
  split
  · exact Or.inl rfl
  rename_i st1 hst1
  obtain ⟨s0, hs0, hst1'⟩ := addToConversationHistory_ok_inv hst1
  have htasks1 : st1.tasks = st.tasks := by rw [hst1']; rfl
  dsimp only
  split
  · exact Or.inl htasks1
  rename_i ps td hps
  split
  · exact Or.inl htasks1
  split
  · refine Or.inr ⟨session, td, ?_⟩
    show (createTask st1 (contTask session td nid now)).tasks = _
    unfold createTask
    rw [htasks1]
  rename_i st3 hst3
  obtain ⟨s1, hs1, hst3'⟩ := addToConversationHistory_ok_inv hst3
  have htasks3 : st3.tasks = st.tasks ++ [contTask session td nid now] := by
    rw [hst3']
    rw [tasks_updateAISession]
    show (createTask st1 (contTask session td nid now)).tasks = _
    unfold createTask
    rw [htasks1]
  split
  · exact Or.inr ⟨session, td, by
      rw [(sendTaskToExtension_fields st3 session.extensionId
        (contTask session td nid now).ref).1, htasks3]⟩
  · exact Or.inr ⟨session, td, by
      rw [(sendTaskToExtension_fields st3 session.extensionId
        (contTask session td nid now).ref).1, htasks3]⟩

/-- One sequencing-loop turn preserves every existing task row. -/
theorem continueTaskSequence_getTask_some (oracle : Nat → OracleResp)
    (pb : PromptBuilder) (st : St) (sid : String) (pd : PageData)
    (lr : Option LastResult) (nid : String) (now : Nat) {tid : String} {y : Task}
    (h : getTask st tid = some y) :
    getTask (continueTaskSequence oracle pb st sid pd lr nid now).1 tid = some y := by
  rcases continueTaskSequence_tasks oracle pb st sid pd lr nid now with ht | ⟨s0, td, ht⟩
  · rw [getTask_congr ht tid]
    exact h
  · exact getTask_of_tasks_append ht h

/-! ## The first stored task of a session -/

/-- The task id of the first history entry that carries a task — the
task the scheduler fetches when starting a due scheduled session. -/
def firstTaskIdOf (h : List HistoryEntry) : Option String :=
  ((h.find? (fun e => e.task.isSome)).bind (fun e => e.task)).bind (fun tr => tr.id)

/-- `firstTaskIdOf` of a session's history. -/
def firstTaskId (s : Session) : Option String := firstTaskIdOf s.history

theorem applySessionUpdate_scheduledAt (sid : String) (a : Option String)
    (b : Option (List HistoryEntry)) (n : Nat) (x : Session) :
    (applySessionUpdate sid a b n x).scheduledAt = x.scheduledAt := by
  unfold applySessionUpdate
  split <;> rfl

theorem executeScheduledTask_getTask_other (oracle : Nat → OracleResp)
    (pb : PromptBuilder) (pageResp : PageResp) (st : St) (u : Task) (nid : String)
    (now : Nat) {tid : String} {y : Task} (h : getTask st tid = some y)
    (hne : tid ≠ u.id) :
    getTask (executeScheduledTask oracle pb pageResp st u nid now) tid = some y := by
  have hA : getTask (updateTaskStatus st u.id "started" none none now) tid = some y :=
    getTask_update_other h u.id "started" none none now hne
  unfold executeScheduledTask
  dsimp only
  split
  · rename_i s hsfound
    split
    · exact getTask_update_other hA u.id "failed" none _ now hne
    · split
      · exact getTask_update_other hA u.id "failed" none _ now hne
      · rename_i pd hpd
        split
        · exact getTask_update_other hA u.id "failed" none _ now hne
        · have hC := continueTaskSequence_getTask_some oracle pb
            (updateTaskStatus st u.id "started" none none now) s.id pd
            (some { task := some { id := none, type := u.type, params := u.params,
                                   reasoning := none },
                    reasoning := u.reasoning, result := none, error := none })
            nid now hA
          split
          · exact hC
          · exact getTask_update_other hC u.id "failed" none _ now hne
  · split
    · exact getTask_update_other hA u.id "failed" none _ now hne
    · rename_i ext hext
      split
      · exact getTask_update_other hA u.id "failed" none _ now hne
      · have hS : getTask (sendTaskToExtension
            (updateTaskStatus st u.id "started" none none now) ext u.ref).1 tid = some y := by
          rw [getTask_congr (sendTaskToExtension_fields
            (updateTaskStatus st u.id "started" none none now) ext u.ref).1 tid]
          exact hA
        split
        · exact hS
        · exact getTask_update_other hS u.id "failed" none _ now hne

theorem execDueLoop_row_pres (oracle : Nat → OracleResp) (pb : PromptBuilder)
    (pageResp : PageResp) (freshId : Nat → String) (now : Nat) {tid : String} {y : Task} :
    ∀ (L : List Task) (acc : St × List String × Nat),
      getTask acc.1 tid = some y → (∀ u ∈ L, u.id ≠ tid) →
      getTask (execDueLoop oracle pb pageResp freshId now L acc).1 tid = some y
  | [], acc, h, _ => h
  | u :: L, acc, h, hne => by
    unfold execDueLoop
    refine execDueLoop_row_pres oracle pb pageResp freshId now L _ ?_ ?_
    · exact executeScheduledTask_getTask_other oracle pb pageResp acc.1 u
        (freshId acc.2.2) now h (fun hh => hne u (List.mem_cons_self u L) hh.symm)
    · exact fun v hv => hne v (List.mem_cons_of_mem u hv)

theorem resetStuckLoop_sessions (now : Nat) :
    ∀ (L : List Task) (st : St), (resetStuckLoop now L st).sessions = st.sessions
  | [], _ => rfl
  | u :: L, st => by
    unfold resetStuckLoop
    rw [resetStuckLoop_sessions now L _]
    rfl

theorem resetStuckLoop_row_other (now : Nat) {tid : String} {y : Task} :
    ∀ (L : List Task) (st : St), (∀ u ∈ L, u.id ≠ tid) → getTask st tid = some y →
      getTask (resetStuckLoop now L st) tid = some y
  | [], _, _, h => h
  | u :: L, st, hne, h => by
    unfold resetStuckLoop
    refine resetStuckLoop_row_other now L _ (fun v hv => hne v (List.mem_cons_of_mem u hv)) ?_
    exact getTask_update_other h u.id "pending" none none now
      (fun hh => hne u (List.mem_cons_self u L) hh.symm)

theorem resetStuckLoop_pending_persist (now : Nat) {tid : String} :
    ∀ (L : List Task) (st : St) (y : Task),
      getTask st tid = some y → y.status = "pending" →
      ∃ y', getTask (resetStuckLoop now L st) tid = some y' ∧ y'.status = "pending"
  | [], _, y, h, hp => ⟨y, h, hp⟩
  | u :: L, st, y, h, hp => by
    unfold resetStuckLoop
    by_cases hu : u.id = tid
    · have h' : getTask st u.id = some y := by rw [hu]; exact h
      have hidy : y.id = u.id := getTask_id h'
      obtain ⟨hsP, _, _⟩ := applyTaskStatus_self_status u.id "pending" none none now hidy
      have hup : getTask (updateTaskStatus st u.id "pending" none none now) tid =
          some (applyTaskStatus u.id "pending" none none now y) := by
        rw [← hu]
        exact getTask_update_self h' "pending" none none now
      exact resetStuckLoop_pending_persist now L _ _ hup hsP
    · exact resetStuckLoop_pending_persist now L _ y
        (getTask_update_other h u.id "pending" none none now (fun hh => hu hh.symm)) hp

theorem resetStuckLoop_reset (now : Nat) {tid : String} :
    ∀ (L : List Task) (st : St) (y u : Task),
      u ∈ L → u.id = tid → getTask st tid = some y →
      ∃ y', getTask (resetStuckLoop now L st) tid = some y' ∧ y'.status = "pending"
  | [], _, _, u, hu, _, _ => absurd hu (List.not_mem_nil u)
  | u0 :: L, st, y, u, hu, hid, h => by
    unfold resetStuckLoop
    by_cases hu0 : u0.id = tid
    · have h' : getTask st u0.id = some y := by rw [hu0]; exact h
      have hidy : y.id = u0.id := getTask_id h'
      obtain ⟨hsP, _, _⟩ := applyTaskStatus_self_status u0.id "pending" none none now hidy
      have hup : getTask (updateTaskStatus st u0.id "pending" none none now) tid =
          some (applyTaskStatus u0.id "pending" none none now y) := by
        rw [← hu0]
        exact getTask_update_self h' "pending" none none now
      exact resetStuckLoop_pending_persist now L _ _ hup hsP
    · rcases List.mem_cons.mp hu with rfl | hmem
      · exact absurd hid hu0
      · exact resetStuckLoop_reset now L _ y u hmem hid
          (getTask_update_other h u0.id "pending" none none now (fun hh => hu0 hh.symm))

theorem tick_stuck_char (oracle : Nat → OracleResp) (pb : PromptBuilder)
    (pageResp : PageResp) (freshId : Nat → String) (st : St) (now : Nat)
    (h : ¬ 0 < (getDueScheduledTasks st now).length) :
    checkAndExecuteScheduledTasks oracle pb pageResp freshId st now =
      ((execSessionsLoop oracle pb pageResp freshId now
          (getScheduledAISessions
            (resetStuckLoop now
              ((getTasksByUser st "anonymous" 100).filter (isStuck now)) st) now)
          (resetStuckLoop now
            ((getTasksByUser st "anonymous" 100).filter (isStuck now)) st, [], 0)).1,
       (execSessionsLoop oracle pb pageResp freshId now
          (getScheduledAISessions
            (resetStuckLoop now
              ((getTasksByUser st "anonymous" 100).filter (isStuck now)) st) now)
          (resetStuckLoop now
            ((getTasksByUser st "anonymous" 100).filter (isStuck now)) st, [], 0)).2.1) := by
  unfold checkAndExecuteScheduledTasks
  simp only [h, if_false]

/-- The membership facts behind a session being in the due list. -/
theorem getScheduledAISessions_mem {st : St} {now : Nat} {s : Session}
    (h : s ∈ getScheduledAISessions st now) :
    s ∈ st.sessions ∧ ∃ sb, s.scheduledAt = some sb ∧ sb ≤ now ∧ s.status = "active" := by
  unfold getScheduledAISessions at h
  rw [mem_stableSort] at h
  obtain ⟨hmem, hprop⟩ := List.mem_filter.mp h
  refine ⟨hmem, ?_⟩
  simp only [Bool.and_eq_true] at hprop
  obtain ⟨⟨hsome, hble⟩, hact⟩ := hprop
  cases hsb : s.scheduledAt with
  | none => rw [hsb] at hsome; simp at hsome
  | some sb =>
    refine ⟨sb, rfl, ?_, by simpa using hact⟩
    rw [hsb] at hble
    simpa using hble

def c7page : PageResp := fun _ => .error "no page"

theorem getTasksByUser_subset {st : St} {uid : String} {n : Nat} {u : Task}
    (h : u ∈ getTasksByUser st uid n) : u ∈ st.tasks := by
  unfold getTasksByUser at h
  have h1 := List.mem_of_mem_take h
  rw [mem_stableSort] at h1
  exact (List.mem_filter.mp h1).1

/-- The session loop leaves a task row alone when no processed session
references it: each executed first-task has a different id, and every
other mutation either targets that different id or only appends rows,
which cannot shadow an existing row under the find-first lookup. -/
theorem execSessionsLoop_row_noref (oracle : Nat → OracleResp) (pb : PromptBuilder)
    (pageResp : PageResp) (freshId : Nat → String) (now : Nat) {tid : String} {y : Task} :
    ∀ (L : List Session) (acc : St × List String × Nat),
      (∀ s ∈ L, firstTaskId s ≠ some tid) →
      getTask acc.1 tid = some y →
      getTask (execSessionsLoop oracle pb pageResp freshId now L acc).1 tid = some y
  | [], _, _, h => h
  | s :: L, acc, hnr, h => by
    have hnr' : ∀ s1 ∈ L, firstTaskId s1 ≠ some tid :=
      fun s1 h1 => hnr s1 (List.mem_cons_of_mem s h1)
    unfold execSessionsLoop
    cases hf : s.history.find? (fun e => e.task.isSome) with
    | none => exact execSessionsLoop_row_noref oracle pb pageResp freshId now L acc hnr' h
    | some entry =>
      dsimp only
      cases he : entry.task with
      | none => exact execSessionsLoop_row_noref oracle pb pageResp freshId now L acc hnr' h
      | some tr =>
        dsimp only
        cases hi : tr.id with
        | none => exact execSessionsLoop_row_noref oracle pb pageResp freshId now L acc hnr' h
        | some tid1 =>
          dsimp only
          cases hg : getTask acc.1 tid1 with
          | none => exact execSessionsLoop_row_noref oracle pb pageResp freshId now L acc hnr' h
          | some task =>
            dsimp only
            by_cases hguard : (task.status == "pending") = true
            · rw [hguard]
              simp only [if_true]
              have hfirst : firstTaskId s = some tid1 := by
                unfold firstTaskId firstTaskIdOf
                rw [hf]
                simp only [Option.bind]
                rw [he]
                simp only [Option.bind]
                exact hi
              have hne1 : tid1 ≠ tid := by
                intro hc
                exact hnr s (List.mem_cons_self s L) (by rw [hfirst, hc])
              have htaskid : task.id = tid1 := getTask_id hg
              refine execSessionsLoop_row_noref oracle pb pageResp freshId now L _ hnr' ?_
              exact executeScheduledTask_getTask_other oracle pb pageResp acc.1 task
                (freshId acc.2.2) now h
                (by rw [htaskid]; exact fun hc => hne1 hc.symm)
            · simp only [Bool.not_eq_true] at hguard
              rw [hguard]
              simp only [Bool.false_eq_true, if_false]
              exact execSessionsLoop_row_noref oracle pb pageResp freshId now L acc hnr' h

def c8due : Task :=
  { id := "due1", userId := "anonymous", extensionId := none, type := "navigate",
    params := [], reasoning := none, status := "pending", result := none, error := none,
    scheduledAt := some 900000, createdAt := 1, startedAt := none, completedAt := none }

def c8stuck : Task :=
  { id := "stuck1", userId := "anonymous", extensionId := none, type := "navigate",
    params := [], reasoning := none, status := "started", result := none, error := none,
    scheduledAt := some 1000, createdAt := 2, startedAt := some 640000,
    completedAt := none }

def c8St : St := { tasks := [c8due, c8stuck], sessions := [], connections := [], sent := [] }

/-- Claim C8 counterexample: on a tick at time 1000000 with one due
pending task present, the task stuck in `started` since 640000 (six
minutes earlier) is NOT reset to `pending` — stuck-step recovery lives
in the else-branch and is skipped whenever any due task exists. -/
theorem stuck_not_reset_when_due :
    isStuck 1000000 c8stuck = true ∧
    (getTask (checkAndExecuteScheduledTasks c3oracle trivPB c7page (fun _ => "n1")
        c8St 1000000).1 "stuck1").map Task.status = some "started" := by
  constructor
  · decide
  · rfl

/-- Claim C8 (amended): stuck-step recovery runs only on ticks with no
due scheduled task.  On such a tick, a task of user `anonymous` (within
the 100-row cap) in `started` status whose schedule has passed and whose
`started_at` is missing or more than 5 minutes old is reset to
`pending`; a task whose `started_at` is within the last 5 minutes is
left untouched.  Hypotheses: the task table satisfies its primary-key
invariant, the task is a stored row not referenced as any session's
first task, and no task is due this tick. -/
theorem scheduler_stuck_recovery (oracle : Nat → OracleResp) (pb : PromptBuilder)
    (pageResp : PageResp) (freshId : Nat → String) (st : St) (now : Nat) (t : Task)
    (hwf : taskIdsNodup st) (ht : t ∈ st.tasks)
    (hdue : getDueScheduledTasks st now = [])
    (hnoref : ∀ s ∈ st.sessions, firstTaskId s ≠ some t.id) :
    (t ∈ getTasksByUser st "anonymous" 100 → isStuck now t = true →
      ∃ y', getTask (checkAndExecuteScheduledTasks oracle pb pageResp freshId st now).1
          t.id = some y' ∧ y'.status = "pending") ∧
    (∀ sb, t.startedAt = some sb → now - STUCK_CUTOVER_MS ≤ sb →
      getTask (checkAndExecuteScheduledTasks oracle pb pageResp freshId st now).1 t.id
        = some t) := by
  have hlen : ¬ 0 < (getDueScheduledTasks st now).length := by rw [hdue]; simp
  have hself : getTask st t.id = some t := getTask_of_mem_nodup hwf ht
  have hnoref2 : ∀ s1 ∈ getScheduledAISessions
      (resetStuckLoop now ((getTasksByUser st "anonymous" 100).filter (isStuck now)) st)
        now,
      firstTaskId s1 ≠ some t.id := by
    intro s1 h1
    have h2 := (getScheduledAISessions_mem h1).1
    rw [resetStuckLoop_sessions] at h2
    exact hnoref s1 h2
  constructor
  · intro hmem hstuck
    rw [tick_stuck_char oracle pb pageResp freshId st now hlen]
    have hfil : t ∈ (getTasksByUser st "anonymous" 100).filter (isStuck now) :=
      List.mem_filter.mpr ⟨hmem, hstuck⟩
    obtain ⟨y', hy', hp'⟩ := resetStuckLoop_reset now
      ((getTasksByUser st "anonymous" 100).filter (isStuck now)) st t t hfil rfl hself
    exact ⟨y', execSessionsLoop_row_noref oracle pb pageResp freshId now _ _ hnoref2 hy',
      hp'⟩
  · intro sb hsb hrecent
    rw [tick_stuck_char oracle pb pageResp freshId st now hlen]
    have hblt : Nat.blt sb (now - STUCK_CUTOVER_MS) = false := by
      rw [Bool.eq_false_iff]
      intro hc
      rw [Nat.blt_eq] at hc
      omega
    have hnstuck : isStuck now t = false := by
      unfold isStuck
      rw [hsb]
      simp [hblt]
    have hother : ∀ u ∈ (getTasksByUser st "anonymous" 100).filter (isStuck now),
        u.id ≠ t.id := by
      intro u hu hc
      have hu1 := List.mem_filter.mp hu
      have hu2 : u ∈ st.tasks := getTasksByUser_subset hu1.1
      have hut : u = t := task_unique hwf hu2 ht hc
      rw [hut, hnstuck] at hu1
      exact Bool.false_ne_true hu1.2
    have hrow := resetStuckLoop_row_other now _ st hother hself
    exact execSessionsLoop_row_noref oracle pb pageResp freshId now _ _ hnoref2 hrow

def c8recent : Task :=
  { id := "recent1", userId := "anonymous", extensionId := none, type := "navigate",
    params := [], reasoning := none, status := "started", result := none, error := none,
    scheduledAt := some 1000, createdAt := 3, startedAt := some 900000,
    completedAt := none }

def c8wSt : St :=
  { tasks := [c8stuck, c8recent], sessions := [], connections := [], sent := [] }

theorem scheduler_stuck_recovery_witness :
    (∃ y', getTask (checkAndExecuteScheduledTasks c3oracle trivPB c7page (fun _ => "n1")
        c8wSt 1000000).1 "stuck1" = some y' ∧ y'.status = "pending") ∧
    getTask (checkAndExecuteScheduledTasks c3oracle trivPB c7page (fun _ => "n1")
        c8wSt 1000000).1 "recent1" = some c8recent := by
  constructor
  · exact (scheduler_stuck_recovery c3oracle trivPB c7page (fun _ => "n1") c8wSt 1000000
      c8stuck (by unfold taskIdsNodup; decide) (by decide) (by decide)
      (by intro s hs; exact absurd hs (List.not_mem_nil s))).1 (by decide) (by decide)
  · exact (scheduler_stuck_recovery c3oracle trivPB c7page (fun _ => "n1") c8wSt 1000000
      c8recent (by unfold taskIdsNodup; decide) (by decide) (by decide)
      (by intro s hs; exact absurd hs (List.not_mem_nil s))).2 900000 rfl (by decide)

end Maestro
